import Mathlib

/-!
Verification of the dockerfile-patch core (`dockerfile_patch/__init__.py`)
against its natural-language specification.

The Python classes `DockerfilePatcher` and `DockerFact` and the orchestrator
function `dockerfile_patch` are shallowly embedded below.  Pure string
manipulation is translated directly; the effectful fact-gathering routine is
translated into an explicit state machine whose external collaborators
(filesystem, docker daemon, YAML parser) are abstracted as parameters that
record which step succeeds and what data it yields.

A note on string literals: the ASCII apostrophe that the Python source writes
inside comment strings is spelled with the escape `\x27` here, and the ASCII
brace escapes `\x7b`/`\x7d` are not needed anywhere.
-/

/-- Models CPython `str.strip()` (with no argument): remove leading and
trailing whitespace characters.  The whitespace classes of Python and
`Char.isWhitespace` agree on every character appearing in this development. -/
def pyStrip (s : String) : String :=
  ⟨((s.data.dropWhile Char.isWhitespace).reverse.dropWhile Char.isWhitespace).reverse⟩

/-- Models CPython `str.upper()`.  Only ASCII keywords such as `FROM` are
upper-cased in the program, where `Char.toUpper` agrees with Python. -/
def pyUpper (s : String) : String :=
  ⟨s.data.map Char.toUpper⟩

/-- Python truthiness of an optional string (`None` and `''` are falsy). -/
def pyTruthyOptStr : Option String → Bool
  | none => false
  | some s => s ≠ ""

/-- One record of `DockerfileParser.structure` (a Python dict with keys
`instruction`, `value`, `content`, `endline`). -/
structure Instruction where
  instruction : String
  value : String
  content : String
  endline : Nat
deriving DecidableEq, Repr

/-- One element of `DockerfilePatcher.patches`
(`{'image': ..., 'patch_name': ..., 'content': ...}`, source lines 98-100). -/
structure PatchEntry where
  image : String
  patch_name : Option String
  content : String
deriving DecidableEq, Repr

/-- The mutable state of a `DockerfilePatcher` object: the deep-copied parser
structure (list of instruction records) and the ordered patch registry. -/
structure DockerfilePatcher where
  structure' : List Instruction
  patches : List PatchEntry
deriving DecidableEq, Repr

/-- `DockerfilePatcher.get_images` (source lines 60-77): keep, in file order,
every record whose instruction upper-cases to `FROM`; when the `image`
argument is truthy (Python: `if image and item['value'] != image`), keep only
records whose value equals it.  The `image_names` set is only logged. -/
def get_images (d : DockerfilePatcher) (image : Option String) : List Instruction :=
  d.structure'.filter (fun item =>
    pyUpper item.instruction == "FROM" &&
    (match image with
     | none => true
     | some img => img == "" || item.value == img))

/-- CPython equality between a `str` and the dict elements of
`DockerfilePatcher.patches`: `image in self.patches` (source line 91) compares
the string with each dict via `==`, and a `str` never equals a `dict`
(both `__eq__` methods return `NotImplemented`, so the comparison is `False`).
Hence this predicate is constantly `false`. -/
def pyEqStrDict (_image : String) (_p : PatchEntry) : Bool := false

/-- `DockerfilePatcher.add_patch` (source lines 79-100): the duplicate guard
`if image in self.patches` (a `str` sought in a list of dicts) can never fire,
after which the stripped image and the entry are appended to the registry. -/
def add_patch (d : DockerfilePatcher) (image : String) (content : String)
    (patch_name : Option String) : Except String DockerfilePatcher :=
  if d.patches.any (pyEqStrDict image) then
    .error ("The image \x27" ++ image ++ "\x27 exists already.")
  else
    .ok { d with
          patches := d.patches ++
            [{ image := pyStrip image, patch_name := patch_name, content := content }] }

/-- A sequence of `add_patch` calls `(image, content, patch_name)`,
short-circuiting on the first error as Python exception propagation would. -/
def addPatches (d : DockerfilePatcher)
    (calls : List (String × String × Option String)) : Except String DockerfilePatcher :=
  calls.foldlM (fun acc c => add_patch acc c.1 c.2.1 c.2.2) d

/-- The delimiter comment built inside `DockerfilePatcher.to_str`
(source lines 120-128): `"#" + '-'*8 + " '" + item['value'] + "' dockerfile-patch"`,
then `': ' + patch_name` when the name is truthy, then `' '` and `'-'*8`.
Note that the image written into the comment is the `FROM` record's value,
not the entry's registered target image. -/
def patchComment (fromValue : String) (p : PatchEntry) : String :=
  let c := "#" ++ "--------" ++ " \x27" ++ fromValue ++ "\x27 dockerfile-patch"
  let c := if pyTruthyOptStr p.patch_name then c ++ ": " ++ p.patch_name.getD "" else c
  c ++ " " ++ "--------"

/-- The text appended for one patch entry after a `FROM` record
(source lines 130-134): newline, comment, newline, content, newline,
comment, two newlines. -/
def patchBlock (fromValue : String) (p : PatchEntry) : String :=
  "\n" ++ patchComment fromValue p ++ "\n" ++ p.content ++ "\n" ++
  patchComment fromValue p ++ "\n\n"

/-- The inner `for patch_item in self.patches` loop of `to_str`
(source lines 119-134): every registered entry is appended, in registration
order, with no filtering on the entry's target image. -/
def fromEmission (patches : List PatchEntry) (fromValue : String) : String :=
  patches.foldl (fun res p => res ++ patchBlock fromValue p) ""

/-- `DockerfilePatcher.to_str` (source lines 102-136): concatenate each
record's `content`; when `patch` is true, append the patch emission after
every record whose instruction is exactly `FROM`.  The `endlines` dict built
at the top of the Python function is dead (never read) and is omitted. -/
def to_str (d : DockerfilePatcher) (patch : Bool) : String :=
  d.structure'.foldl
    (fun result item =>
      let result' := result ++ item.content
      if !patch then result'
      else if item.instruction == "FROM" then
        result' ++ fromEmission d.patches item.value
      else result')
    ""

/-- What `to_str` appends for one instruction record: its raw content, then,
when patching is on and the record is a `FROM`, the patch emission. -/
def itemEmission (patches : List PatchEntry) (patch : Bool) (item : Instruction) : String :=
  item.content ++
    (if patch && (item.instruction == "FROM") then fromEmission patches item.value else "")


/-!
## Orchestrator (`dockerfile_patch`, source lines 297-377)
-/

/-- The per-image patch composition of the orchestrator (source lines
354-374).  `rendered` holds, per loaded Jinja2 template, the pair of its path
and the text produced by rendering it against the gathered facts (rendering
itself is the external template engine).  The provenance-headed sections are
concatenated; then, when the gathered `docker_image_user` is not `root`, the
Python code executes `patch += A + patch + B` (note `+=`, appending the
bracketed copy AFTER the unbracketed text), with
`A = '# dockerfile-patch: change the user to root\nUSER root\n\n# The patch running as root:\n'`
and `B = '# dockerfile-patch: go back to the original user\nUSER ' + user + '\n'`. -/
def composePatch (rendered : List (String × String)) (docker_image_user : String) : String :=
  let patch := rendered.foldl
    (fun patch item =>
      patch ++ "\n" ++ "#\n" ++ "# ==> Patch: " ++ item.1 ++ "\n" ++ "#\n" ++
        pyStrip item.2 ++ "\n")
    ""
  if docker_image_user != "root" then
    patch ++
      ("# dockerfile-patch: change the user to root\n" ++ "USER root\n\n" ++
        "# The patch running as root:\n" ++ patch ++
        "# dockerfile-patch: go back to the original user\n" ++
        "USER " ++ docker_image_user ++ "\n")
  else
    patch

/-- The fact-gathering loop of the orchestrator (source lines 342-351),
projected onto the decisions that matter for deduplication: `facts_keys`
models the key set of the `facts` dict, and the returned list logs, in order,
the image names passed to `gather_facts`. -/
def gatherLoop (facts_keys : List String) : List Instruction → List String
  | [] => []
  | item :: rest =>
      if facts_keys.contains item.value then
        gatherLoop facts_keys rest
      else
        item.value :: gatherLoop (facts_keys ++ [item.value]) rest

/-- The sequence of `gather_facts` invocations the orchestrator performs for
a loaded document: the loop runs over `get_images` with the `facts` dict
initially empty. -/
def orchestratorGatherCalls (d : DockerfilePatcher) : List String :=
  gatherLoop [] (get_images d none)

/-- Modelled from the spec: the list of base-image values with each value kept
exactly at its first occurrence in file order (later duplicates removed). -/
def keepFirstOccurrences : List String → List String
  | [] => []
  | v :: rest => v :: keepFirstOccurrences (rest.filter (fun w => w ≠ v))
termination_by l => l.length
decreasing_by
  simp only [List.length_cons]
  exact Nat.lt_succ_of_le (List.length_filter_le _ _)

/-!
## Fact-gathering engine (`DockerFact`, source lines 139-294)
-/

/-- The failure that aborts a `gather_facts` call, one per potential failure
point of the Python function (source lines 158-272):
`writeError` = an `OSError` while materializing the fact scripts
(lines 188-223); `pullError` = `images.pull` raised (line 229);
`inspectError` = `api.inspect_image` raised (line 233); `runError` =
`containers.run` raised (line 237); `typeError` = the assignment
`facts['docker_image_user'] = ...` raised `TypeError` because `yaml.load`
returned `None` or another non-mapping (lines 255-261); `exitEmptyFacts` =
the `sys.exit(1)` of the `if not facts` branch (lines 263-265). -/
inductive GatherErr where
  | writeError
  | pullError
  | inspectError
  | runError
  | typeError
  | exitEmptyFacts
deriving DecidableEq, Repr

/-- The state a `gather_facts` call reads and writes: `tmpfiles` is the
`self.tmpfiles` attribute of the `DockerFact` object, `existingDirs` the set
of temporary directories currently present on disk. -/
structure FactState where
  tmpfiles : List String
  existingDirs : List String
deriving DecidableEq, Repr

/-- The behaviour of the external collaborators during one `gather_facts`
call: the name `mkdtemp` picks for the workspace, whether each effectful step
succeeds, the image's configured `Config.User` reported by inspect (`none` =
inspect raised), and the content of the `facts.yaml` file found in the
workspace afterwards (`none` = the file is absent and `open` raises
`IOError`). -/
structure GatherEnv where
  dirName : String
  writeScriptsOk : Bool
  pullOk : Bool
  inspectUser : Option String
  runOk : Bool
  factsFile : Option String
deriving DecidableEq, Repr

/-- Python dict assignment `facts[k] = v` on a mapping (association list in
insertion order): replace the value of an existing key in place, else append
the new binding at the end. -/
def setFact (facts : List (String × String)) (k v : String) : List (String × String) :=
  if facts.any (fun p => p.1 == k) then
    facts.map (fun p => if p.1 == k then (k, v) else p)
  else
    facts ++ [(k, v)]

/-- Python dict lookup `facts[k]` as an option (first binding of `k`). -/
def dictGet (facts : List (String × String)) (k : String) : Option String :=
  (facts.find? (fun p => p.1 == k)).map (fun p => p.2)

/-- The `stdout` variable after the facts-file read (source lines 245-253):
an absent file raises `IOError`, which is caught, leaving `stdout = ''`. -/
def readStdout : Option String → String
  | none => ""
  | some c => c

/-- The value the `docker_image_user` injection writes (source lines
258-261): the already-stripped inspected user when Python-truthy
(`if image_user:`), else `'root'`. -/
def userFactValue (image_user : String) : String :=
  if image_user ≠ "" then image_user else "root"

deriving instance DecidableEq for Except

/-- Outcome of a `gather_facts` call: the final `DockerFact`/filesystem state
and either the returned fact document or the propagating failure. -/
structure GatherResult where
  state : FactState
  outcome : Except GatherErr (List (String × String))
deriving DecidableEq, Repr

/-- `DockerFact.gather_facts` (source lines 158-272) as a state machine.
`yamlLoad` abstracts `yaml.load`: `none` models a result (such as Python
`None` for empty input) that is not a mutable mapping, so that the subsequent
`facts['docker_image_user'] = ...` raises `TypeError`; `some m` models a
mapping.  Step order follows the source: mkdtemp + `self.tmpfiles.append`
(lines 173-176), script materialization (188-223), pull (229), inspect + user
strip (233-234), container run (237-243), facts-file read (245-253),
`yaml.load` (255), `docker_image_user` injection (258-261), the
`if not facts: sys.exit(1)` check (263-265), and `self._rm_tmpfiles()`
(line 270), which deletes every recorded path and empties `tmpfiles`.  There
is no `try/finally`: an exception raised after the workspace was created
propagates without any deletion having happened (`_rm_tmpfiles` is reached
only on the fall-through success path). -/
def gather_facts (env : GatherEnv)
    (yamlLoad : String → Option (List (String × String)))
    (s : FactState) : GatherResult :=
  let tmpfiles := s.tmpfiles ++ [env.dirName]
  let s1 : FactState := ⟨tmpfiles, s.existingDirs ++ [env.dirName]⟩
  if !env.writeScriptsOk then ⟨s1, .error .writeError⟩
  else if !env.pullOk then ⟨s1, .error .pullError⟩
  else
    match env.inspectUser with
    | none => ⟨s1, .error .inspectError⟩
    | some userRaw =>
      if !env.runOk then ⟨s1, .error .runError⟩
      else
        let image_user := pyStrip userRaw
        let stdout := readStdout env.factsFile
        match yamlLoad stdout with
        | none => ⟨s1, .error .typeError⟩
        | some facts0 =>
          let facts := setFact facts0 "docker_image_user" (userFactValue image_user)
          if facts.isEmpty then ⟨s1, .error .exitEmptyFacts⟩
          else
            ⟨⟨[], s1.existingDirs.filter (fun p => !tmpfiles.contains p)⟩, .ok facts⟩


/-- A concrete stand-in for PyYAML's `yaml.load` used in concrete runs:
empty input parses to Python `None` (not a mapping), anything else to the
one-key mapping a typical probe script produces.  Faithful to PyYAML on the
inputs it is applied to. -/
def ylPy : String → Option (List (String × String)) :=
  fun s => if s = "" then none else some [("osfamily", "debian")]

/-- A run in which every external step succeeds: the probe scripts write a
facts file and the image declares no explicit user. -/
def envAllOk : GatherEnv :=
  { dirName := "dockerfile-patch-ok.tmp", writeScriptsOk := true, pullOk := true,
    inspectUser := some "", runOk := true, factsFile := some "osfamily: debian" }

/-- A run in which `docker pull` raises. -/
def envPullFails : GatherEnv :=
  { dirName := "dockerfile-patch-pf.tmp", writeScriptsOk := true, pullOk := false,
    inspectUser := some "", runOk := true, factsFile := none }

/-- A successful run against an image whose configured user is `" app "`. -/
def envUserApp : GatherEnv :=
  { dirName := "dockerfile-patch-ua.tmp", writeScriptsOk := true, pullOk := true,
    inspectUser := some " app ", runOk := true, factsFile := some "osfamily: debian" }

/-- A run in which the container succeeds but writes no facts file. -/
def envNoFactsFile : GatherEnv :=
  { dirName := "dockerfile-patch-nf.tmp", writeScriptsOk := true, pullOk := true,
    inspectUser := some "", runOk := true, factsFile := none }

/-- A one-`FROM` document with two patches registered for its image. -/
def docTwoPatches : DockerfilePatcher :=
  { structure' := [⟨"FROM", "alpine", "FROM alpine\n", 0⟩],
    patches := [⟨"alpine", some "p1", "RUN a"⟩, ⟨"alpine", some "p2", "RUN b"⟩] }

/-!
## General lemmas
-/

section StringLemmas

theorem str_append_data (s t : String) : s ++ t = ⟨s.data ++ t.data⟩ := by
  cases s; cases t; rfl

theorem str_append_assoc (a b c : String) : a ++ b ++ c = a ++ (b ++ c) := by
  cases a; cases b; cases c
  simp [str_append_data, List.append_assoc]

theorem str_append_nil (s : String) : s ++ "" = s := by
  cases s; simp [str_append_data]

theorem str_nil_append (s : String) : "" ++ s = s := by
  cases s; simp [str_append_data]

theorem str_foldl_shift {α : Type} (f : α → String) (l : List α) :
    ∀ a b : String,
      l.foldl (fun acc x => acc ++ f x) (a ++ b) =
        a ++ l.foldl (fun acc x => acc ++ f x) b := by
  induction l with
  | nil => intro a b; rfl
  | cons x rest ih =>
      intro a b
      simp only [List.foldl]
      rw [str_append_assoc, ih]

theorem str_foldl_out {α : Type} (f : α → String) (l : List α) (a : String) :
    l.foldl (fun acc x => acc ++ f x) a =
      a ++ l.foldl (fun acc x => acc ++ f x) "" := by
  conv_lhs => rw [← str_append_nil a]
  exact str_foldl_shift f l a ""

theorem str_join_cons (s : String) (l : List String) :
    String.join (s :: l) = s ++ String.join l := by
  show l.foldl (fun acc x => acc ++ x) ("" ++ s) = s ++ String.join l
  rw [str_nil_append, str_foldl_out (fun x => x) l s]
  rfl

theorem str_foldl_eq_join {α : Type} (f : α → String) (l : List α) :
    ∀ a : String,
      l.foldl (fun acc x => acc ++ f x) a = a ++ String.join (l.map f) := by
  induction l with
  | nil => intro a; simp [String.join, str_append_nil]
  | cons x rest ih =>
      intro a
      simp only [List.foldl, List.map, str_join_cons]
      rw [ih, str_append_assoc]

end StringLemmas


/-- The per-`FROM` emission is the join of the per-entry blocks, in
registration order. -/
theorem fromEmission_eq_join (patches : List PatchEntry) (v : String) :
    fromEmission patches v = String.join (patches.map (patchBlock v)) := by
  unfold fromEmission
  rw [str_foldl_eq_join, str_nil_append]


/-- Closed form of `to_str`: the serialization is the join, in file order, of
the per-record emissions. -/
theorem to_str_eq_join (d : DockerfilePatcher) (patch : Bool) :
    to_str d patch = String.join (d.structure'.map (itemEmission d.patches patch)) := by
  unfold to_str
  have hfun : (fun (result : String) (item : Instruction) =>
      let result' := result ++ item.content
      if !patch then result'
      else if item.instruction == "FROM" then
        result' ++ fromEmission d.patches item.value
      else result') = (fun result item => result ++ itemEmission d.patches patch item) := by
    funext r i
    cases patch <;> cases hf : (i.instruction == "FROM") <;>
      simp [itemEmission, hf, str_append_nil, str_append_assoc]
  rw [hfun, str_foldl_eq_join, str_nil_append]

theorem str_join_append (l₁ l₂ : List String) :
    String.join (l₁ ++ l₂) = String.join l₁ ++ String.join l₂ := by
  induction l₁ with
  | nil => simp [String.join, str_nil_append]
  | cons s rest ih =>
      simp only [List.cons_append, str_join_cons, ih, str_append_assoc]

/-- The duplicate-image guard of `add_patch` never fires: the `any` ranges
over the constantly-false comparison of a string with a dict. -/
theorem any_pyEqStrDict_false (l : List PatchEntry) (s : String) :
    l.any (pyEqStrDict s) = false := by
  induction l with
  | nil => rfl
  | cons p rest ih => simp [List.any_cons, pyEqStrDict, ih]

/-- Python dict assignment always leaves the mapping non-empty. -/
theorem setFact_isEmpty (m : List (String × String)) (k v : String) :
    (setFact m k v).isEmpty = false := by
  unfold setFact
  split
  · next h =>
      cases m with
      | nil => simp [List.any_nil] at h
      | cons p rest => simp [List.map, List.isEmpty]
  · cases m <;> simp [List.isEmpty]

theorem dictGet_map_set (k v : String) (m : List (String × String))
    (h : m.any (fun p => p.1 == k) = true) :
    dictGet (m.map (fun p => if p.1 == k then (k, v) else p)) k = some v := by
  induction m with
  | nil => simp [List.any_nil] at h
  | cons p rest ih =>
      by_cases hp : (p.1 == k) = true
      · simp [dictGet, List.map, List.find?, hp]
      · have h' : rest.any (fun q => q.1 == k) = true := by
          simp only [List.any_cons, hp, Bool.false_or] at h
          exact h
        have hr := ih h'
        simp only [dictGet, List.map, hp, if_neg] at hr ⊢
        rw [List.find?_cons_of_neg]
        · exact hr
        · simp [hp]

theorem dictGet_append_new (k v : String) (m : List (String × String))
    (h : m.any (fun p => p.1 == k) = false) :
    dictGet (m ++ [(k, v)]) k = some v := by
  induction m with
  | nil => simp [dictGet, List.find?]
  | cons p rest ih =>
      simp only [List.any_cons, Bool.or_eq_false_iff] at h
      have hr := ih h.2
      simp only [dictGet, List.cons_append] at hr ⊢
      rw [List.find?_cons_of_neg]
      · exact hr
      · simp [h.1]

/-- After `facts[k] = v`, looking up `k` yields `v`. -/
theorem dictGet_setFact (m : List (String × String)) (k v : String) :
    dictGet (setFact m k v) k = some v := by
  unfold setFact
  by_cases h : m.any (fun p => p.1 == k) = true
  · rw [if_pos h]; exact dictGet_map_set k v m h
  · rw [if_neg h]
    exact dictGet_append_new k v m (Bool.eq_false_iff.mpr h)

/-- Every `gather_facts` call either propagates a failure with the workspace
directory still recorded and still on disk, or returns facts after
`_rm_tmpfiles` emptied the record list and removed the recorded paths. -/
theorem gather_facts_shape (env : GatherEnv)
    (yl : String → Option (List (String × String))) (s : FactState) :
    (∃ e, gather_facts env yl s =
      ⟨⟨s.tmpfiles ++ [env.dirName], s.existingDirs ++ [env.dirName]⟩, .error e⟩) ∨
    (∃ facts, gather_facts env yl s =
      ⟨⟨[], (s.existingDirs ++ [env.dirName]).filter
          (fun p => !(s.tmpfiles ++ [env.dirName]).contains p)⟩, .ok facts⟩) := by
  simp only [gather_facts]
  split
  · exact Or.inl ⟨_, rfl⟩
  split
  · exact Or.inl ⟨_, rfl⟩
  split
  · exact Or.inl ⟨_, rfl⟩
  split
  · exact Or.inl ⟨_, rfl⟩
  split
  · exact Or.inl ⟨_, rfl⟩
  split
  · exact Or.inl ⟨_, rfl⟩
  · exact Or.inr ⟨_, rfl⟩

/-- The `sys.exit(1)` branch of `gather_facts` is unreachable: by the time
the `if not facts` check runs, the `docker_image_user` injection has made the
document non-empty. -/
theorem gather_facts_no_empty_exit (env : GatherEnv)
    (yl : String → Option (List (String × String))) (s : FactState) :
    (gather_facts env yl s).outcome ≠ .error .exitEmptyFacts := by
  simp only [gather_facts]
  split
  · intro hcon; simp at hcon
  split
  · intro hcon; simp at hcon
  split
  · intro hcon; simp at hcon
  split
  · intro hcon; simp at hcon
  split
  · intro hcon; simp at hcon
  split
  · next h => rw [setFact_isEmpty] at h; simp at h
  · intro hcon; simp at hcon

/-- The gathering loop, started with any set of already-gathered keys,
invokes `gather_facts` exactly on the first occurrences of the not-yet-seen
image values, in file order. -/
theorem gatherLoop_eq_kfo (items : List Instruction) :
    ∀ seen : List String,
      gatherLoop seen items =
        keepFirstOccurrences
          ((items.map Instruction.value).filter (fun v => !seen.contains v)) := by
  induction items with
  | nil =>
      intro seen
      simp [gatherLoop, keepFirstOccurrences]
  | cons item rest ih =>
      intro seen
      rw [List.map_cons]
      cases hc : seen.contains item.value with
      | true =>
          rw [List.filter_cons_of_neg (by simpa using hc)]
          simp only [gatherLoop, hc, if_true]
          exact ih seen
      | false =>
          rw [List.filter_cons_of_pos (by simpa using hc)]
          simp only [gatherLoop, hc, Bool.false_eq_true, if_false]
          rw [keepFirstOccurrences]
          rw [ih (seen ++ [item.value])]
          congr 1
          rw [List.filter_filter]
          congr 1
          apply List.filter_congr
          intro v hv
          simp [Bool.and_comm]

/-- `keepFirstOccurrences` keeps each member exactly once. -/
theorem kfo_count (v : String) (l : List String) :
    (keepFirstOccurrences l).count v = if v ∈ l then 1 else 0 := by
  induction l using keepFirstOccurrences.induct with
  | case1 => simp [keepFirstOccurrences]
  | case2 w rest ih =>
      rw [keepFirstOccurrences]
      by_cases hv : v = w
      · subst hv
        have hnot : v ∉ rest.filter (fun x => x ≠ v) := by simp
        rw [List.count_cons_self]
        rw [ih]
        simp [hnot]
      · rw [List.count_cons_of_ne hv]
        rw [ih]
        by_cases hm : v ∈ rest <;> simp [List.mem_filter, hv, hm]

/-!
## Claims
-/

/-- Claim C1 (confirmed): serializing with patching disabled
(`to_str(patch=False)`) produces exactly the concatenation, in order, of the
raw source text (`content`) of every instruction record, whatever patch
entries are registered in `d.patches` — the round-trip law. -/
theorem c1_round_trip_unpatched (d : DockerfilePatcher) :
    to_str d false = String.join (d.structure'.map (fun item => item.content)) := by
  rw [to_str_eq_join]
  have h : itemEmission d.patches false = fun item => item.content := by
    funext i
    simp [itemEmission, str_append_nil]
  rw [h]

set_option maxRecDepth 8000 in
/-- Claim C2 (code bug): `to_str(patch=True)` does NOT restrict the emitted
patch entries to those targeting the `FROM` record's image.  Here the sole
registered entry targets `ubuntu`, yet its content is also emitted after
`FROM debian`, wrapped in delimiter comments that name `debian`.  The inner
loop of `to_str` (source lines 119-134) iterates over all of `self.patches`
without comparing the entry's registered image to the record's value. -/
theorem c2_patch_emitted_after_foreign_from :
    to_str { structure' := [⟨"FROM", "ubuntu", "FROM ubuntu\n", 0⟩,
                            ⟨"FROM", "debian", "FROM debian\n", 1⟩],
             patches := [⟨"ubuntu", none, "RUN echo patched"⟩] } true =
      "FROM ubuntu\n\n#-------- \x27ubuntu\x27 dockerfile-patch --------\nRUN echo patched\n#-------- \x27ubuntu\x27 dockerfile-patch --------\n\nFROM debian\n\n#-------- \x27debian\x27 dockerfile-patch --------\nRUN echo patched\n#-------- \x27debian\x27 dockerfile-patch --------\n\n" := by
  decide

/-- Claim C3 (code bug): with gathered user `app`, the composed patch does
not BEGIN with the switch to root — the `patch += A + patch + B` of source
lines 367-372 appends the bracketed copy after the original, so the rendered
template content appears twice (once before `USER root`, once between the
two switches).  With user `root` no bracketing is added, as the claim says. -/
theorem c3_bracketing_appended_after_unbracketed_patch :
    composePatch [("p.j2", "RUN x")] "app" =
      "\n#\n# ==> Patch: p.j2\n#\nRUN x\n# dockerfile-patch: change the user to root\nUSER root\n\n# The patch running as root:\n\n#\n# ==> Patch: p.j2\n#\nRUN x\n# dockerfile-patch: go back to the original user\nUSER app\n" ∧
    composePatch [("p.j2", "RUN x")] "root" = "\n#\n# ==> Patch: p.j2\n#\nRUN x\n" :=
  ⟨rfl, rfl⟩

/-- Claim C6 (confirmed): no `add_patch` call ever raises — the duplicate
guard compares a string against dict entries and cannot fire — and every
call appends exactly one entry, so any sequence of calls (duplicate images
included) succeeds and leaves the registry holding all entries in
registration order. -/
theorem c6_add_patch_total (d : DockerfilePatcher)
    (calls : List (String × String × Option String)) :
    addPatches d calls = .ok { d with
      patches := d.patches ++
        calls.map (fun c => { image := pyStrip c.1, patch_name := c.2.2, content := c.2.1 }) } := by
  induction calls generalizing d with
  | nil =>
      simp only [addPatches, List.foldlM, List.map_nil, List.append_nil]
      rfl
  | cons c rest ih =>
      simp only [addPatches] at ih ⊢
      rw [List.foldlM_cons]
      rw [add_patch, any_pyEqStrDict_false]
      simp only [Bool.false_eq_true, if_false]
      have hb : ∀ (x : DockerfilePatcher)
          (f : DockerfilePatcher → Except String DockerfilePatcher),
          ((Except.ok x : Except String DockerfilePatcher) >>= f) = f x := fun _ _ => rfl
      rw [hb, ih]
      simp [List.append_assoc]

/-- Claim C7 (confirmed): the orchestrator invokes `gather_facts` exactly
once per distinct base-image value (exact string equality), at that value's
first occurrence in file order: the invocation log equals the first-occurrence
subsequence of the `FROM` values, and each value present among the `FROM`
records is gathered exactly once. -/
theorem c7_gather_once_per_distinct_image (d : DockerfilePatcher) :
    orchestratorGatherCalls d =
      keepFirstOccurrences ((get_images d none).map Instruction.value) ∧
    ∀ v, (orchestratorGatherCalls d).count v =
      if v ∈ (get_images d none).map Instruction.value then 1 else 0 := by
  have h1 : orchestratorGatherCalls d =
      keepFirstOccurrences ((get_images d none).map Instruction.value) := by
    unfold orchestratorGatherCalls
    rw [gatherLoop_eq_kfo]
    congr 1
    simp
  exact ⟨h1, fun v => by rw [h1, kfo_count]⟩

/-- Claim C8 (confirmed): serialization emits the registered patch entries in
registration order — if `p1` was registered before `p2`, the per-`FROM`
emission decomposes with `p1`'s delimiter-wrapped block strictly before
`p2`'s block, and `to_str` places that emission right after each `FROM`
record's raw text. -/
theorem c8_blocks_in_registration_order (d : DockerfilePatcher) (v : String)
    (l1 l2 l3 : List PatchEntry) (p1 p2 : PatchEntry)
    (hp : d.patches = l1 ++ p1 :: (l2 ++ p2 :: l3)) :
    fromEmission d.patches v =
      String.join (l1.map (patchBlock v)) ++ patchBlock v p1 ++
      String.join (l2.map (patchBlock v)) ++ patchBlock v p2 ++
      String.join (l3.map (patchBlock v)) ∧
    to_str d true = String.join (d.structure'.map (itemEmission d.patches true)) := by
  constructor
  · rw [hp, fromEmission_eq_join, List.map_append, str_join_append, List.map_cons,
      str_join_cons, List.map_append, str_join_append, List.map_cons, str_join_cons]
    simp only [str_append_assoc]
  · exact to_str_eq_join d true

/-- Claim C4 (counterexample): when `docker pull` raises, the exception
propagates out of `gather_facts` while the workspace directory created by the
call is still on disk — there is no `try/finally` around steps 2-7, so the
claimed deletion on every exit path fails. -/
theorem c4_workspace_left_on_pull_failure :
    (gather_facts envPullFails ylPy ⟨[], []⟩).outcome = .error .pullError ∧
    envPullFails.dirName ∈
      (gather_facts envPullFails ylPy ⟨[], []⟩).state.existingDirs := by
  exact ⟨rfl, by decide⟩

/-- Claim C4 (amended): the workspace directory is deleted (and the recorded
path list emptied) before a normal return, but on any exception the directory
is still on disk when the exception propagates, merely recorded in
`self.tmpfiles` for later best-effort deletion by `__del__`. -/
theorem c4_cleanup_on_success_only (env env2 : GatherEnv)
    (yl yl2 : String → Option (List (String × String))) (s s2 : FactState) (e : GatherErr)
    (hok : (gather_facts env yl s).outcome.isOk = true)
    (herr : (gather_facts env2 yl2 s2).outcome = .error e) :
    env.dirName ∉ (gather_facts env yl s).state.existingDirs ∧
    (gather_facts env yl s).state.tmpfiles = [] ∧
    env2.dirName ∈ (gather_facts env2 yl2 s2).state.existingDirs ∧
    env2.dirName ∈ (gather_facts env2 yl2 s2).state.tmpfiles := by
  rcases gather_facts_shape env yl s with ⟨e1, h1⟩ | ⟨f1, h1⟩
  · rw [h1] at hok
    simp [Except.isOk, Except.toBool] at hok
  · rcases gather_facts_shape env2 yl2 s2 with ⟨e2, h2⟩ | ⟨f2, h2⟩
    · rw [h1, h2]
      refine ⟨?_, rfl, by simp, by simp⟩
      intro hmem
      rw [List.mem_filter] at hmem
      have h := hmem.2
      simp at h
    · rw [h2] at herr
      simp at herr

theorem c4_cleanup_on_success_only_witness :
    (gather_facts envAllOk ylPy ⟨[], []⟩).outcome.isOk = true ∧
    (gather_facts envPullFails ylPy ⟨[], []⟩).outcome = .error .pullError ∧
    (envAllOk.dirName ∉ (gather_facts envAllOk ylPy ⟨[], []⟩).state.existingDirs ∧
     (gather_facts envAllOk ylPy ⟨[], []⟩).state.tmpfiles = [] ∧
     envPullFails.dirName ∈ (gather_facts envPullFails ylPy ⟨[], []⟩).state.existingDirs ∧
     envPullFails.dirName ∈ (gather_facts envPullFails ylPy ⟨[], []⟩).state.tmpfiles) :=
  ⟨by decide, by decide,
   c4_cleanup_on_success_only envAllOk envPullFails ylPy ylPy ⟨[], []⟩ ⟨[], []⟩ .pullError
     (by decide) (by decide)⟩

/-- Claim C5 (code bug): when the probe scripts write no facts file, the read
step leaves `stdout = ''`, `yaml.load('')` yields Python `None`, and the
`docker_image_user` injection then raises `TypeError` — `gather_facts` fails
before the explicit empty-facts `sys.exit(1)` can run, so a missing facts
file IS an error in the code, contrary to the claim. -/
theorem c5_absent_facts_file_raises_typeerror :
    (gather_facts envNoFactsFile ylPy ⟨[], []⟩).outcome = .error .typeError := by
  rfl

/-- Claim C9 (confirmed): a fact document returned by `gather_facts` always
carries the key `docker_image_user`, whose value is the inspected user
whitespace-stripped when that is non-empty, and `root` when the image
declares no explicit user. -/
theorem c9_docker_image_user_injected (env : GatherEnv)
    (yl : String → Option (List (String × String))) (s : FactState)
    (u : String) (facts : List (String × String))
    (hu : env.inspectUser = some u)
    (hok : (gather_facts env yl s).outcome = .ok facts) :
    dictGet facts "docker_image_user" =
      some (if pyStrip u ≠ "" then pyStrip u else "root") := by
  simp only [gather_facts, hu] at hok
  split at hok
  · simp at hok
  split at hok
  · simp at hok
  split at hok
  · simp at hok
  split at hok
  · simp at hok
  split at hok
  · simp at hok
  · rw [Except.ok.injEq] at hok
    rw [← hok, dictGet_setFact]
    rfl

theorem c9_docker_image_user_injected_witness :
    envUserApp.inspectUser = some " app " ∧
    (gather_facts envUserApp ylPy ⟨[], []⟩).outcome =
      .ok [("osfamily", "debian"), ("docker_image_user", "app")] ∧
    dictGet [("osfamily", "debian"), ("docker_image_user", "app")] "docker_image_user" =
      some (if pyStrip " app " ≠ "" then pyStrip " app " else "root") :=
  ⟨rfl, by decide,
   c9_docker_image_user_injected envUserApp ylPy ⟨[], []⟩ " app " _ rfl (by decide)⟩

/-- Claim C10 (confirmed): the explicit empty-fact-document exit branch of
`gather_facts` is unreachable — the `docker_image_user` injection precedes
the emptiness check, so the document is never empty there — and when the
facts file is absent or parses to no mapping, the injection itself fails
(`TypeError` on subscripting a non-mapping) before the check can run. -/
theorem c10_exit_branch_unreachable (env env2 : GatherEnv)
    (yl yl2 : String → Option (List (String × String))) (s s2 : FactState) (u : String)
    (hw : env.writeScriptsOk = true) (hp : env.pullOk = true)
    (hu : env.inspectUser = some u) (hr : env.runOk = true)
    (hy : yl (readStdout env.factsFile) = none) :
    (gather_facts env yl s).outcome = .error .typeError ∧
    (gather_facts env2 yl2 s2).outcome ≠ .error .exitEmptyFacts := by
  refine ⟨?_, gather_facts_no_empty_exit env2 yl2 s2⟩
  simp only [gather_facts, hw, hp, hu, hr, hy, Bool.not_true, Bool.false_eq_true, if_false]

theorem c10_exit_branch_unreachable_witness :
    envNoFactsFile.writeScriptsOk = true ∧ envNoFactsFile.pullOk = true ∧
    envNoFactsFile.inspectUser = some "" ∧ envNoFactsFile.runOk = true ∧
    ylPy (readStdout envNoFactsFile.factsFile) = none ∧
    ((gather_facts envNoFactsFile ylPy ⟨[], []⟩).outcome = .error .typeError ∧
     (gather_facts envAllOk ylPy ⟨[], []⟩).outcome ≠ .error .exitEmptyFacts) :=
  ⟨rfl, rfl, rfl, rfl, by decide,
   c10_exit_branch_unreachable envNoFactsFile envAllOk ylPy ylPy ⟨[], []⟩ ⟨[], []⟩ ""
     rfl rfl rfl rfl (by decide)⟩

theorem c8_blocks_in_registration_order_witness :
    docTwoPatches.patches =
      [] ++ ⟨"alpine", some "p1", "RUN a"⟩ :: ([] ++ ⟨"alpine", some "p2", "RUN b"⟩ :: []) ∧
    (fromEmission docTwoPatches.patches "alpine" =
      String.join (([] : List PatchEntry).map (patchBlock "alpine")) ++
        patchBlock "alpine" ⟨"alpine", some "p1", "RUN a"⟩ ++
      String.join (([] : List PatchEntry).map (patchBlock "alpine")) ++
        patchBlock "alpine" ⟨"alpine", some "p2", "RUN b"⟩ ++
      String.join (([] : List PatchEntry).map (patchBlock "alpine")) ∧
    to_str docTwoPatches true =
      String.join (docTwoPatches.structure'.map (itemEmission docTwoPatches.patches true))) :=
  ⟨rfl, c8_blocks_in_registration_order docTwoPatches "alpine" [] [] [] _ _ rfl⟩
